import Mathlib

/-!
Verification of the weather web app (src/app.py).

Python strings are modelled as lists of characters (`PyStr`), matching
Python's code-point indexing and slicing semantics.  The external provider
response is modelled as a structure carrying the HTTP status code and the
JSON fields the code reads (`coord.lat`, `coord.lon`, `timezone`, `dt`,
`main.temp`, `main.feels_like`, `main.pressure`, `main.humidity`,
`visibility`, `wind.speed`, `weather[0].description`); the numeric/textual
payloads are kept abstract in a type parameter `V`, except the epoch
timestamp `dt`, which the code converts to a formatted date string.
Python dicts with string keys are modelled as association lists in
insertion order.
-/

/-- Python `str`, modelled as a list of characters (code points). -/
abbrev PyStr := List Char

/-- Python `str.lower()` (ASCII case mapping suffices for the inputs at stake). -/
def lower (s : PyStr) : PyStr := s.map Char.toLower

/-- Python `str.strip()`: remove leading and trailing whitespace. -/
def strip (s : PyStr) : PyStr :=
  ((s.dropWhile Char.isWhitespace).reverse.dropWhile Char.isWhitespace).reverse

/-- Python `s.endswith(t)`. -/
def endswith (s t : PyStr) : Bool := t.isSuffixOf s

/-- The `split_suffix` function of src/app.py lines 87-102:
Python slicing `string[:-n]` is `List.take (length - n)`. -/
def split_suffix (string : PyStr) : PyStr × PyStr :=
  if endswith string ("++".data) then (string.take (string.length - 2), ("++".data))
  else if endswith string ("+".data) then (string.take (string.length - 1), ("+".data))
  else (string, ("".data))

/-- The provider response as read by `fetch_weather_info` (src/app.py lines
36-49): the HTTP status code, the epoch timestamp `dt`, and the remaining
JSON fields as abstract payloads of type `V`.  The field names follow the
local variables of lines 39-49. -/
structure WeatherResponse (V : Type) where
  status_code : Nat
  lat : V
  lon : V
  tz : V
  dt : Nat
  temp : V
  feels_like : V
  pressure : V
  humidity : V
  visibility : V
  wind_speed : V
  descr : V
deriving DecidableEq

/-- A value stored in a weather-report dict: either a payload carried over
from the provider response, or a string built by the code (the formatted
date, the error message). -/
inductive Val (V : Type) where
  | of (x : V)
  | txt (s : PyStr)
deriving DecidableEq

/-- Left-pad a number to two digits, as strftime does for %m %d %H %M %S. -/
def pad2 (n : Nat) : PyStr :=
  (if n < 10 then ("0".data) else ("".data)) ++ Nat.toDigits 10 n

/-- Models line 42 of src/app.py:
`datetime.fromtimestamp(ts, tz=timezone.utc).strftime("%Y-%m-%d %H:%M:%S UTC")`
for a nonnegative epoch timestamp, via the standard civil-from-days
calendar algorithm. -/
def formatTimestamp (ts : Nat) : PyStr :=
  let days := ts / 86400
  let secs := ts % 86400
  let hh := secs / 3600
  let mm := secs % 3600 / 60
  let ss := secs % 60
  let z := days + 719468
  let era := z / 146097
  let doe := z % 146097
  let yoe := (doe - doe / 1460 + doe / 36524 - doe / 146096) / 365
  let doy := doe - (365 * yoe + yoe / 4 - yoe / 100)
  let mp := (5 * doy + 2) / 153
  let d := doy - (153 * mp + 2) / 5 + 1
  let m := if mp < 10 then mp + 3 else mp - 9
  let y := yoe + era * 400 + (if m ≤ 2 then 1 else 0)
  Nat.toDigits 10 y ++ ("-".data) ++ pad2 m ++ ("-".data) ++ pad2 d
    ++ (" ".data) ++ pad2 hh ++ (":".data) ++ pad2 mm ++ (":".data) ++ pad2 ss
    ++ (" UTC".data)

/-- The `fetch_weather_info` function of src/app.py lines 15-85, with the
network call modelled away: the provider's response is an explicit input.
The locals `lat`, `lon`, `tz`, `dt`, ... of lines 39-49 are inlined as the
corresponding response fields; `dt` is the formatted date string of line 42.
The suffix comparison order (`"+"` first, then `"++"`, then the default)
mirrors lines 52-80, and the non-200 branch mirrors lines 81-85. -/
def fetch_weather_info {V : Type} (city suffix : PyStr) (response : WeatherResponse V) :
    List (PyStr × Val V) :=
  if response.status_code = 200 then
    if suffix = ("+".data) then
      [(("latitude".data), Val.of response.lat),
       (("longitude".data), Val.of response.lon),
       (("date".data), Val.txt (formatTimestamp response.dt)),
       (("temperature".data), Val.of response.temp),
       (("feels_like".data), Val.of response.feels_like),
       (("description".data), Val.of response.descr)]
    else if suffix = ("++".data) then
      [(("latitude".data), Val.of response.lat),
       (("longitude".data), Val.of response.lon),
       (("timezone".data), Val.of response.tz),
       (("date".data), Val.txt (formatTimestamp response.dt)),
       (("temperature".data), Val.of response.temp),
       (("feels_like".data), Val.of response.feels_like),
       (("pressure".data), Val.of response.pressure),
       (("humidity".data), Val.of response.humidity),
       (("visibility".data), Val.of response.visibility),
       (("wind_speed".data), Val.of response.wind_speed),
       (("description".data), Val.of response.descr)]
    else
      [(("temperature".data), Val.of response.temp),
       (("feels_like".data), Val.of response.feels_like),
       (("description".data), Val.of response.descr)]
  else
    [(("error_message".data), Val.txt (("No weather info for ".data) ++ lower city))]

/-- Python `k in d` / `d[k]` on a dict modelled as an association list. -/
def dict_lookup {V : Type} (k : PyStr) : List (PyStr × Val V) → Option (Val V)
  | [] => none
  | kv :: rest => if kv.1 = k then some kv.2 else dict_lookup k rest

/-- Python `d.pop(k)`: the dict without the key `k`. -/
def dict_remove {V : Type} (k : PyStr) (d : List (PyStr × Val V)) : List (PyStr × Val V) :=
  d.filter (fun kv => !(kv.1 == k))

/-- The POST branch of the `index` handler, src/app.py lines 111-117:
parse the form value with `split_suffix(city.strip().lower())`, fetch, then
pop the key "error" into the `error` view value when present.  Returns the
`data` dict and the `error` value passed to the view. -/
def index_post {V : Type} (city : PyStr) (response : WeatherResponse V) :
    List (PyStr × Val V) × Option (Val V) :=
  let parsed := split_suffix (lower (strip city))
  let weather_data := fetch_weather_info parsed.1 parsed.2 response
  match dict_lookup ("error".data) weather_data with
  | some v => (dict_remove ("error".data) weather_data, some v)
  | none => (weather_data, none)

/-- A concrete successful response over `V := Nat`, with pairwise distinct
payloads, used to instantiate the universally quantified theorems. -/
def resp200 : WeatherResponse Nat :=
  { status_code := 200, lat := 1, lon := 2, tz := 3, dt := 0, temp := 5,
    feels_like := 6, pressure := 7, humidity := 8, visibility := 9,
    wind_speed := 10, descr := 11 }

/-- A concrete failed response over `V := Nat`. -/
def resp404 : WeatherResponse Nat :=
  { status_code := 404, lat := 0, lon := 0, tz := 0, dt := 0, temp := 0,
    feels_like := 0, pressure := 0, humidity := 0, visibility := 0,
    wind_speed := 0, descr := 0 }

/-- Decomposition of a string along a suffix check: if `s` ends with `t`,
then restoring `t` after removing the last `t.length` characters gives back
`s`.  Shared helper for the parser claims. -/
theorem endswith_take_append (s t : PyStr) (h : endswith s t = true) :
    s.take (s.length - t.length) ++ t = s := by
  have hs : t <:+ s := List.isSuffixOf_iff_suffix.mp h
  obtain ⟨p, hp⟩ := hs
  subst hp
  simp [List.length_append]

/-- C1: `split_suffix` is total over all strings and follows the exact case
analysis of the spec: a string ending in "++" maps to (last two characters
removed, FULL suffix "++"); otherwise, one ending in "+" maps to (last
character removed, suffix "+"); otherwise the string is returned unchanged
with the empty suffix.  Totality holds by construction. -/
theorem split_suffix_cases (s : PyStr) :
    (endswith s ("++".data) = true →
      split_suffix s = (s.take (s.length - 2), ("++".data))) ∧
    (endswith s ("++".data) = false → endswith s ("+".data) = true →
      split_suffix s = (s.take (s.length - 1), ("+".data))) ∧
    (endswith s ("++".data) = false → endswith s ("+".data) = false →
      split_suffix s = (s, ("".data))) := by
  refine ⟨fun h => ?_, fun h1 h2 => ?_, fun h1 h2 => ?_⟩
  · unfold split_suffix
    rw [if_pos h]
  · unfold split_suffix
    rw [if_neg (by simp [h1]), if_pos h2]
  · unfold split_suffix
    rw [if_neg (by simp [h1]), if_neg (by simp [h2])]

/-- C1 witness: the case analysis applied at "tokyo++", "paris+", "london". -/
theorem split_suffix_cases_witness :
    split_suffix ("tokyo++".data) = (("tokyo".data), ("++".data)) ∧
    split_suffix ("paris+".data) = (("paris".data), ("+".data)) ∧
    split_suffix ("london".data) = (("london".data), ("".data)) := by
  refine ⟨?_, ?_, ?_⟩
  · exact ((split_suffix_cases ("tokyo++".data)).1 (by decide)).trans (by decide)
  · exact ((split_suffix_cases ("paris+".data)).2.1 (by decide) (by decide)).trans (by decide)
  · exact ((split_suffix_cases ("london".data)).2.2 (by decide) (by decide)).trans (by decide)

/-- C7: on a string ending in three or more plus characters, `split_suffix`
strips exactly the last two characters and reports the FULL suffix "++";
the remaining trailing plus characters stay in the base name. -/
theorem split_suffix_many_plus (s : PyStr) (h : endswith s ("+++".data) = true) :
    split_suffix s = (s.take (s.length - 2), ("++".data)) := by
  have h3 : ("+++".data) <:+ s := List.isSuffixOf_iff_suffix.mp h
  have h2 : ("++".data) <:+ s := List.IsSuffix.trans (by decide) h3
  have he : endswith s ("++".data) = true := List.isSuffixOf_iff_suffix.mpr h2
  unfold split_suffix
  rw [if_pos he]

/-- C7 witness: "lhr+++" ends in three plus characters and parses to
("lhr+", "++"): only the last two characters are stripped. -/
theorem split_suffix_many_plus_witness :
    split_suffix ("lhr+++".data) = (("lhr+".data), ("++".data)) := by
  rw [split_suffix_many_plus ("lhr+++".data) (by decide)]
  decide

/-- C8: round-trip: for every string, concatenating the parsed base name
with the parsed suffix reproduces the input exactly, and the suffix is one
of "", "+", "++". -/
theorem split_suffix_round_trip (s : PyStr) :
    (split_suffix s).1 ++ (split_suffix s).2 = s ∧
    ((split_suffix s).2 = ("".data) ∨ (split_suffix s).2 = ("+".data) ∨
      (split_suffix s).2 = ("++".data)) := by
  unfold split_suffix
  by_cases h2 : endswith s ("++".data) = true
  · rw [if_pos h2]
    refine ⟨?_, Or.inr (Or.inr rfl)⟩
    have h := endswith_take_append s ("++".data) h2
    simpa using h
  · rw [if_neg h2]
    by_cases h1 : endswith s ("+".data) = true
    · rw [if_pos h1]
      refine ⟨?_, Or.inr (Or.inl rfl)⟩
      have h := endswith_take_append s ("+".data) h1
      simpa using h
    · rw [if_neg h1]
      exact ⟨by simp, Or.inl rfl⟩

/-- C2: on a 200 response, FULL detail (suffix "++") returns exactly the 11
keys latitude, longitude, timezone, date, temperature, feels_like, pressure,
humidity, visibility, wind_speed, description, in this order, with values
taken from coord.lat, coord.lon, timezone, dt (formatted), main.temp,
main.feels_like, main.pressure, main.humidity, visibility, wind.speed,
weather[0].description, and no extra keys. -/
theorem fetch_full_shape (V : Type) (city : PyStr) (r : WeatherResponse V)
    (h : r.status_code = 200) :
    fetch_weather_info city ("++".data) r =
      [(("latitude".data), Val.of r.lat),
       (("longitude".data), Val.of r.lon),
       (("timezone".data), Val.of r.tz),
       (("date".data), Val.txt (formatTimestamp r.dt)),
       (("temperature".data), Val.of r.temp),
       (("feels_like".data), Val.of r.feels_like),
       (("pressure".data), Val.of r.pressure),
       (("humidity".data), Val.of r.humidity),
       (("visibility".data), Val.of r.visibility),
       (("wind_speed".data), Val.of r.wind_speed),
       (("description".data), Val.of r.descr)] := by
  unfold fetch_weather_info
  rw [if_pos h, if_neg (by decide), if_pos rfl]

/-- C2 witness: the FULL shape at a concrete 200 response with distinct
payloads. -/
theorem fetch_full_shape_witness :
    fetch_weather_info ("london".data) ("++".data) resp200 =
      [(("latitude".data), Val.of 1),
       (("longitude".data), Val.of 2),
       (("timezone".data), Val.of 3),
       (("date".data), Val.txt ("1970-01-01 00:00:00 UTC".data)),
       (("temperature".data), Val.of 5),
       (("feels_like".data), Val.of 6),
       (("pressure".data), Val.of 7),
       (("humidity".data), Val.of 8),
       (("visibility".data), Val.of 9),
       (("wind_speed".data), Val.of 10),
       (("description".data), Val.of 11)] :=
  (fetch_full_shape Nat ("london".data) resp200 rfl).trans (by decide)

/-- C5: on a 200 response, PARTIAL detail (suffix "+") returns exactly the
6 keys latitude, longitude, date, temperature, feels_like, description,
with values from the corresponding response fields and no extra keys. -/
theorem fetch_partial_shape (V : Type) (city : PyStr) (r : WeatherResponse V)
    (h : r.status_code = 200) :
    fetch_weather_info city ("+".data) r =
      [(("latitude".data), Val.of r.lat),
       (("longitude".data), Val.of r.lon),
       (("date".data), Val.txt (formatTimestamp r.dt)),
       (("temperature".data), Val.of r.temp),
       (("feels_like".data), Val.of r.feels_like),
       (("description".data), Val.of r.descr)] := by
  unfold fetch_weather_info
  rw [if_pos h, if_pos rfl]

/-- C5 witness: the PARTIAL shape at a concrete 200 response. -/
theorem fetch_partial_shape_witness :
    fetch_weather_info ("london".data) ("+".data) resp200 =
      [(("latitude".data), Val.of 1),
       (("longitude".data), Val.of 2),
       (("date".data), Val.txt ("1970-01-01 00:00:00 UTC".data)),
       (("temperature".data), Val.of 5),
       (("feels_like".data), Val.of 6),
       (("description".data), Val.of 11)] :=
  (fetch_partial_shape Nat ("london".data) resp200 rfl).trans (by decide)

/-- C6: on a 200 response, NONE detail (empty suffix) returns exactly the 3
keys temperature, feels_like, description, with values from main.temp,
main.feels_like and weather[0].description, and no extra keys. -/
theorem fetch_none_shape (V : Type) (city : PyStr) (r : WeatherResponse V)
    (h : r.status_code = 200) :
    fetch_weather_info city ("".data) r =
      [(("temperature".data), Val.of r.temp),
       (("feels_like".data), Val.of r.feels_like),
       (("description".data), Val.of r.descr)] := by
  unfold fetch_weather_info
  rw [if_pos h, if_neg (by decide), if_neg (by decide)]

/-- C6 witness: the NONE shape at a concrete 200 response. -/
theorem fetch_none_shape_witness :
    fetch_weather_info ("london".data) ("".data) resp200 =
      [(("temperature".data), Val.of 5),
       (("feels_like".data), Val.of 6),
       (("description".data), Val.of 11)] :=
  (fetch_none_shape Nat ("london".data) resp200 rfl).trans (by decide)

/-- C9: on a 200 response, any suffix other than "+" and "++" (not only the
empty string) falls through to the default branch and yields the 3-key NONE
shape. -/
theorem fetch_default_shape (V : Type) (city suffix : PyStr) (r : WeatherResponse V)
    (h : r.status_code = 200) (h1 : suffix ≠ ("+".data)) (h2 : suffix ≠ ("++".data)) :
    fetch_weather_info city suffix r =
      [(("temperature".data), Val.of r.temp),
       (("feels_like".data), Val.of r.feels_like),
       (("description".data), Val.of r.descr)] := by
  unfold fetch_weather_info
  rw [if_pos h, if_neg h1, if_neg h2]

/-- C9 witness: the suffix "+++" is neither "+" nor "++" and yields the
NONE shape. -/
theorem fetch_default_shape_witness :
    fetch_weather_info ("london".data) ("+++".data) resp200 =
      [(("temperature".data), Val.of 5),
       (("feels_like".data), Val.of 6),
       (("description".data), Val.of 11)] :=
  (fetch_default_shape Nat ("london".data) ("+++".data) resp200 rfl
    (by decide) (by decide)).trans (by decide)

/-- C3: on any non-200 response, for every name and every detail level, the
result carries exactly the message "No weather info for {name}" with the
name lowercased, with no distinction among failure causes. -/
theorem fetch_error_message (V : Type) (city suffix : PyStr) (r : WeatherResponse V)
    (h : r.status_code ≠ 200) :
    fetch_weather_info city suffix r =
      [(("error_message".data),
        Val.txt (("No weather info for ".data) ++ lower city))] := by
  unfold fetch_weather_info
  rw [if_neg h]

/-- C3 witness: a 404 response for "Atlantis" yields the message
"No weather info for atlantis", lowercased. -/
theorem fetch_error_message_witness :
    fetch_weather_info ("Atlantis".data) ("".data) resp404 =
      [(("error_message".data),
        Val.txt ("No weather info for atlantis".data))] :=
  (fetch_error_message Nat ("Atlantis".data) ("".data) resp404 (by decide)).trans
    (by decide)

/-- Lookup misses on a one-entry dict whose key differs.  Shared helper. -/
theorem dict_lookup_single_ne {V : Type} (k k0 : PyStr) (v : Val V) (h : k0 ≠ k) :
    dict_lookup k [(k0, v)] = none := by
  simp [dict_lookup, h]

/-- C10: on any non-200 response, independent of name and detail level, the
returned dict has exactly the single key "error_message"; in particular it
holds no key "error" and none of the weather-report keys. -/
theorem fetch_error_shape (V : Type) (city suffix : PyStr) (r : WeatherResponse V)
    (h : r.status_code ≠ 200) :
    (fetch_weather_info city suffix r).map Prod.fst = [("error_message".data)] ∧
    dict_lookup ("error".data) (fetch_weather_info city suffix r) = none ∧
    dict_lookup ("temperature".data) (fetch_weather_info city suffix r) = none := by
  unfold fetch_weather_info
  rw [if_neg h]
  exact ⟨rfl, dict_lookup_single_ne _ _ _ (by decide),
    dict_lookup_single_ne _ _ _ (by decide)⟩

/-- C10 witness: the error-shape property at a concrete 404 response. -/
theorem fetch_error_shape_witness :
    (fetch_weather_info ("Atlantis".data) ("++".data) resp404).map Prod.fst =
      [("error_message".data)] ∧
    dict_lookup ("error".data) (fetch_weather_info ("Atlantis".data) ("++".data) resp404) =
      none ∧
    dict_lookup ("temperature".data)
      (fetch_weather_info ("Atlantis".data) ("++".data) resp404) = none :=
  fetch_error_shape Nat ("Atlantis".data) ("++".data) resp404 (by decide)

/-- C4: the handler does NOT surface the fetcher's error message: the
fetcher stores it under the key "error_message" (line 84) while the handler
pops the key "error" (lines 115-116), so on a failed fetch the view gets
error = None and the message stays inside the data dict.  Concretely, for
the POST input "Atlantis" and a 404 response, the error value passed to the
view is none and the data dict still maps "error_message" to the message. -/
theorem index_error_not_surfaced :
    (index_post ("Atlantis".data) resp404).2 = none ∧
    dict_lookup ("error_message".data) (index_post ("Atlantis".data) resp404).1 =
      some (Val.txt ("No weather info for atlantis".data)) := by
  decide
